import Mathlib

/-!
Namesilo DNS-01 webhook solver: a shallow embedding of `main.go`.

The solver of `main.go` is embedded as pure functions.

* Go strings are Lean strings; slicing and `strings.Index` act on the underlying
  character list.
* A Go `error` is identified with its message.
* The external collaborators (zone discovery, the JSON decoder, the Kubernetes secret
  store, the Namesilo client library and the Namesilo service itself) are the fields of
  an environment record `Env`; the service carries a state of type `σ`.
* The mutable receiver `*namesiloDNSProviderSolver` is passed in and returned.
* Calls to the secret store and to the provider are recorded in a trace.
* `fmt.Printf` output is not modelled.
-/

namespace Namesilo

/-! ## Go library functions used by the string transforms -/

/-- Go `strings.Index` on character lists: offset of the first position of `s` at which
`substr` starts, counted from `i`, or `-1` when there is none. -/
def indexFrom (substr : List Char) : List Char → Nat → Int
  | [], i => if substr.isPrefixOf [] then (i : Int) else -1
  | c :: t, i => if substr.isPrefixOf (c :: t) then (i : Int) else indexFrom substr t (i + 1)

/-- Go `strings.Index(s, substr)`: index of the first instance of `substr` in `s`, or `-1`
if `substr` is not present in `s`. -/
def stringsIndex (s substr : String) : Int :=
  indexFrom substr.data s.data 0

/-- Go `strings.HasSuffix(s, suffix)`. -/
def stringsHasSuffix (s suffix : String) : Bool :=
  suffix.data.isSuffixOf s.data

/-- Modelled from the spec: `util.UnFqdn` belongs to the cert-manager library; it strips
the trailing root-zone separator of a name, if there is one (`n := len(name)`; when
`n != 0 && name[n-1] == '.'` the result is `name[:n-1]`, otherwise `name`). -/
def UnFqdn (name : String) : String :=
  let n := name.length
  if n ≠ 0 ∧ name.data[n - 1]? = some '.' then ⟨name.data.take (n - 1)⟩ else name

/-! ## Data model -/

/-- A Go `error` value, identified with its message. -/
abbrev GoError := String

/-- Outcome of a Go call that returns a value and an `error`: a value with a nil error, a
non-nil error, or a run-time panic (nil pointer dereference). -/
inductive Res (α : Type) where
  | ok : α → Res α
  | error : GoError → Res α
  | panic : Res α
  deriving DecidableEq, Repr

/-- The global `customTtl`. -/
def customTtl : Int := 3600

/-- The Kubernetes `corev1.SecretKeySelector`. -/
structure SecretKeySelector where
  Name : String
  Key : String
  Optional : Option Bool
  deriving DecidableEq, Repr

/-- The per-issuer configuration `namesiloDNSProviderConfig`. -/
structure namesiloDNSProviderConfig where
  Username : String
  ApiTokenSecretRef : SecretKeySelector
  deriving DecidableEq, Repr

/-- The Go zero value `namesiloDNSProviderConfig{}`. -/
def namesiloDNSProviderConfig.zero : namesiloDNSProviderConfig :=
  { Username := "", ApiTokenSecretRef := { Name := "", Key := "", Optional := none } }

/-- The fields of `v1alpha1.ChallengeRequest` that the solver reads. `Config` is the raw
JSON blob, `none` when the pointer is nil. -/
structure ChallengeRequest where
  ResolvedFQDN : String
  ResolvedZone : String
  Key : String
  AllowAmbientCredentials : Bool
  Config : Option String
  ResourceNamespace : String
  deriving DecidableEq, Repr

/-- A handle on the Kubernetes API, `*kubernetes.Clientset`. -/
structure Clientset where
  host : String
  deriving DecidableEq, Repr

/-- A Kubernetes secret: its `Data` map. -/
structure Secret where
  Data : List (String × String)
  deriving DecidableEq, Repr

/-- The Namesilo API client `*namesilo.Client`. -/
structure NamesiloClient where
  apiKey : String
  Endpoint : String
  deriving DecidableEq, Repr

/-- The struct `namesilo.DnsAddRecordParams`, with the fields that `Present` sets (`Type_`
is the Go field `Type`). -/
structure DnsAddRecordParams where
  Domain : String
  Host : String
  Type_ : String
  Value : String
  TTL : Int
  deriving DecidableEq, Repr

/-- The struct `namesilo.DnsDeleteRecordParams`. -/
structure DnsDeleteRecordParams where
  Domain : String
  ID : String
  deriving DecidableEq, Repr

/-- The solver `namesiloDNSProviderSolver`: the secret-store handle (nil until
`Initialize` has run) and the identifier of the last record created. -/
structure namesiloDNSProviderSolver where
  client : Option Clientset
  recordId : String
  deriving DecidableEq, Repr

/-- An outbound request: a secret lookup, a create-record call or a delete-record call. -/
inductive Event where
  | secretGet (ns name : String)
  | addRecord (nc : NamesiloClient) (params : DnsAddRecordParams)
  | deleteRecord (nc : NamesiloClient) (params : DnsDeleteRecordParams)
  deriving DecidableEq, Repr

/-- The parameters of a create-record call, `none` for any other request. -/
def Event.addParams : Event → Option DnsAddRecordParams
  | .addRecord _ params => some params
  | _ => none

/-- The create-record calls of a trace, in order. -/
def createCalls (trace : List Event) : List DnsAddRecordParams :=
  trace.filterMap Event.addParams

/-- The external collaborators of the solver. The provider service has a state of type
`σ`, which `DnsAddRecord` and `DnsDeleteRecord` read and update. -/
structure Env (σ : Type) where
  /-- The function `util.FindZoneByFqdn` with the recursive nameservers. -/
  FindZoneByFqdn : String → Except GoError String
  /-- The function `json.Unmarshal(raw, &cfg)`: the updated `cfg` and the error, if any. -/
  Unmarshal : String → namesiloDNSProviderConfig → namesiloDNSProviderConfig × Option GoError
  /-- The call `client.CoreV1().Secrets(namespace).Get(ctx, name, opts)`. -/
  SecretsGet : Clientset → String → String → Except GoError Secret
  /-- The constructor `namesilo.NewClient(apiToken)`. -/
  NewClient : String → NamesiloClient
  /-- The function `namesilo.GetEndpoint(prod, ote)`. -/
  GetEndpoint : Bool → Bool → Except GoError String
  /-- The call `nc.DnsAddRecord(ctx, params)`: the `Reply.RecordID` of the response. -/
  DnsAddRecord : σ → NamesiloClient → DnsAddRecordParams → Except GoError String × σ
  /-- The call `nc.DnsDeleteRecord(ctx, params)`. -/
  DnsDeleteRecord : σ → NamesiloClient → DnsDeleteRecordParams → Except GoError Unit × σ

/-! ## The functions of `main.go` -/

/-- The function `extractRecordName` (lines 244-250). -/
def extractRecordName (fqdn domain : String) : String :=
  let name := UnFqdn fqdn
  let idx := stringsIndex name ("." ++ UnFqdn domain)
  if idx ≠ -1 then ⟨name.data.take idx.toNat⟩ else name

/-- The function `extractDomainName` (lines 252-259). -/
def extractDomainName {σ : Type} (env : Env σ) (zone : String) : String :=
  match env.FindZoneByFqdn zone with
  | .error _ => zone
  | .ok authZone => UnFqdn authZone

/-- The function `loadConfig` (lines 231-242): the config and the error, if any. -/
def loadConfig {σ : Type} (env : Env σ) (cfgJSON : Option String) :
    namesiloDNSProviderConfig × Option GoError :=
  let cfg := namesiloDNSProviderConfig.zero
  match cfgJSON with
  | none => (cfg, none)
  | some raw =>
    match env.Unmarshal raw cfg with
    | (cfg, some err) => (cfg, some ("error decoding solver config: " ++ err))
    | (cfg, none) => (cfg, none)

/-- The method `validate` (lines 199-212): `none` is the nil error. -/
def validate (cfg : namesiloDNSProviderConfig) (allowAmbientCredentials : Bool) :
    Option GoError :=
  if allowAmbientCredentials then none
  else if cfg.Username = "" then some "No Namesilo.com username provided in config"
  else if cfg.ApiTokenSecretRef.Name = "" then
    some "No Namesilo.com API token secret provided in config"
  else none

/-- The method `secret` (lines 215-227), with the secret lookups it performs. A missing
key of the `Data` map reads as the empty string. -/
def secret {σ : Type} (env : Env σ) (c : namesiloDNSProviderSolver)
    (ref : SecretKeySelector) (ns : String) : Res String × List Event :=
  if ref.Name = "" then (.ok "", [])
  else
    match c.client with
    | none => (.panic, [])
    | some cl =>
      match env.SecretsGet cl ns ref.Name with
      | .error err => (.error err, [Event.secretGet ns ref.Name])
      | .ok s => (.ok ((s.Data.lookup ref.Key).getD ""), [Event.secretGet ns ref.Name])

/-- The method `namesiloAPIClient` (lines 172-196), with the requests it performs. -/
def namesiloAPIClient {σ : Type} (env : Env σ) (c : namesiloDNSProviderSolver)
    (ch : ChallengeRequest) : Res NamesiloClient × List Event :=
  match loadConfig env ch.Config with
  | (_, some err) => (.error err, [])
  | (cfg, none) =>
    match validate cfg ch.AllowAmbientCredentials with
    | some err => (.error err, [])
    | none =>
      match secret env c cfg.ApiTokenSecretRef ch.ResourceNamespace with
      | (.error err, tr) => (.error err, tr)
      | (.panic, tr) => (.panic, tr)
      | (.ok apiToken, tr) =>
        let nc := env.NewClient apiToken
        match env.GetEndpoint false true with
        | .error err => (.error err, tr)
        | .ok endpoint => (.ok { nc with Endpoint := endpoint }, tr)

/-- What a call of `Present` or `CleanUp` leaves behind: the returned error (`ok ()` is
nil), the solver, the provider state and the requests performed. -/
structure Step (σ : Type) where
  ret : Res Unit
  solver : namesiloDNSProviderSolver
  prov : σ
  trace : List Event

/-- The parameters that `Present` passes to `DnsAddRecord` (lines 109-115). -/
def presentParams {σ : Type} (env : Env σ) (ch : ChallengeRequest) : DnsAddRecordParams :=
  { Domain := extractDomainName env ch.ResolvedZone
    Host := extractRecordName ch.ResolvedFQDN ch.ResolvedZone
    Type_ := "TXT"
    Value := ch.Key
    TTL := customTtl }

/-- The method `Present` (lines 98-122). -/
def Present {σ : Type} (env : Env σ) (c : namesiloDNSProviderSolver) (w : σ)
    (ch : ChallengeRequest) : Step σ :=
  let domainName := extractDomainName env ch.ResolvedZone
  let recordName := extractRecordName ch.ResolvedFQDN ch.ResolvedZone
  match namesiloAPIClient env c ch with
  | (.error err, tr) => { ret := .error err, solver := c, prov := w, trace := tr }
  | (.panic, tr) => { ret := .panic, solver := c, prov := w, trace := tr }
  | (.ok nc, tr) =>
    let params : DnsAddRecordParams :=
      { Domain := domainName, Host := recordName, Type_ := "TXT", Value := ch.Key,
        TTL := customTtl }
    match env.DnsAddRecord w nc params with
    | (.error err, w') =>
      { ret := .error err, solver := c, prov := w', trace := tr ++ [Event.addRecord nc params] }
    | (.ok recordID, w') =>
      { ret := .ok (), solver := { c with recordId := recordID }, prov := w',
        trace := tr ++ [Event.addRecord nc params] }

/-- The parameters that `CleanUp` passes to `DnsDeleteRecord` (lines 140-143). -/
def cleanUpParams {σ : Type} (env : Env σ) (c : namesiloDNSProviderSolver)
    (ch : ChallengeRequest) : DnsDeleteRecordParams :=
  { Domain := extractDomainName env ch.ResolvedZone, ID := c.recordId }

/-- The method `CleanUp` (lines 130-149). -/
def CleanUp {σ : Type} (env : Env σ) (c : namesiloDNSProviderSolver) (w : σ)
    (ch : ChallengeRequest) : Step σ :=
  let domainName := extractDomainName env ch.ResolvedZone
  match namesiloAPIClient env c ch with
  | (.error err, tr) => { ret := .error err, solver := c, prov := w, trace := tr }
  | (.panic, tr) => { ret := .panic, solver := c, prov := w, trace := tr }
  | (.ok nc, tr) =>
    let params : DnsDeleteRecordParams := { Domain := domainName, ID := c.recordId }
    match env.DnsDeleteRecord w nc params with
    | (.error err, w') =>
      { ret := .error err, solver := c, prov := w', trace := tr ++ [Event.deleteRecord nc params] }
    | (.ok _, w') =>
      { ret := .ok (), solver := c, prov := w', trace := tr ++ [Event.deleteRecord nc params] }

/-! ## A provider that stores TXT records -/

/-- A TXT record held by the provider, with the identifier the provider issued for it
(`Type_` is the record type). -/
structure TxtRecord where
  ID : String
  Domain : String
  Host : String
  Type_ : String
  Value : String
  TTL : Int
  deriving DecidableEq, Repr

/-- Modelled from the spec: the DNS provider is an external service, described as a holder
of DNS records (a TXT record with domain, host part, value and TTL, identified by a
provider-issued record ID returned from the create call). The state is the list of
records held and the number of identifiers issued so far. -/
structure Store where
  records : List TxtRecord
  issued : Nat
  deriving DecidableEq, Repr

/-- The record that a create-record call describes, under the identifier `id`. -/
def TxtRecord.ofParams (id : String) (p : DnsAddRecordParams) : TxtRecord :=
  { ID := id, Domain := p.Domain, Host := p.Host, Type_ := p.Type_, Value := p.Value,
    TTL := p.TTL }

/-- Whether the record `r` has the domain, host, type and value of the call `p`. -/
def TxtRecord.sameData (p : DnsAddRecordParams) (r : TxtRecord) : Bool :=
  decide (r.Domain = p.Domain ∧ r.Host = p.Host ∧ r.Type_ = p.Type_ ∧ r.Value = p.Value)

/-- Modelled from the spec: create-record(domain, host, type, value, ttl) → record ID. The
record is stored under a fresh identifier. With `rejectDuplicates` the provider refuses a
record whose domain, host, type and value it already holds ("if the provider rejects
duplicate-record creation"); without it a second, identical record is stored. -/
def Store.add (rejectDuplicates : Bool) (s : Store) (_nc : NamesiloClient)
    (p : DnsAddRecordParams) : Except GoError String × Store :=
  if rejectDuplicates && s.records.any (TxtRecord.sameData p) then
    (.error "code: 280, details: record already exists", s)
  else
    let id := toString (s.issued + 1)
    (.ok id, { records := s.records ++ [TxtRecord.ofParams id p], issued := s.issued + 1 })

/-- Whether the record `r` is the one a delete-record call names. -/
def TxtRecord.named (p : DnsDeleteRecordParams) (r : TxtRecord) : Bool :=
  decide (r.Domain = p.Domain ∧ r.ID = p.ID)

/-- Modelled from the spec: delete-record(domain, id) → empty. The record of that domain
with that identifier is removed; when there is none the provider reports
"record not found". -/
def Store.delete (s : Store) (_nc : NamesiloClient) (p : DnsDeleteRecordParams) :
    Except GoError Unit × Store :=
  if s.records.any (TxtRecord.named p) then
    (.ok (), { s with records := s.records.filter (fun r => !TxtRecord.named p r) })
  else
    (.error "code: 280, details: record not found", s)

/-- The empty provider. -/
def Store.empty : Store := { records := [], issued := 0 }

/-- The values of the records held, in order of creation. -/
def Store.values (s : Store) : List String := s.records.map TxtRecord.Value

/-! ## A concrete environment -/

/-- A configuration blob naming the account `alice` and a credential reference. -/
def sampleConfigJSON : String :=
  "\x7b\"username\":\"alice\",\"apitokensecret\":\x7b\"name\":\"namesilo-credentials\",\"key\":\"api-token\"\x7d\x7d"

/-- The configuration that `sampleConfigJSON` decodes to. -/
def sampleConfig : namesiloDNSProviderConfig :=
  { Username := "alice"
    ApiTokenSecretRef := { Name := "namesilo-credentials", Key := "api-token", Optional := none } }

/-- A decoder that knows `sampleConfigJSON` and rejects every other blob. -/
def sampleUnmarshal (raw : String) (cfg : namesiloDNSProviderConfig) :
    namesiloDNSProviderConfig × Option GoError :=
  if raw = sampleConfigJSON then (sampleConfig, none)
  else (cfg, some "unexpected end of JSON input")

/-- A secret store holding one secret, `namesilo-credentials` in namespace `cert-manager`. -/
def sampleSecretsGet (_cl : Clientset) (ns name : String) : Except GoError Secret :=
  if ns = "cert-manager" ∧ name = "namesilo-credentials" then
    .ok { Data := [("api-token", "s3cr3t")] }
  else .error ("secrets \"" ++ name ++ "\" not found")

/-- Zone discovery in which every zone asked for is its own authoritative zone. -/
def zonesFound (zone : String) : Except GoError String := .ok zone

/-- Zone discovery that fails. -/
def zonesFail (_zone : String) : Except GoError String :=
  .error "could not find the start of authority"

/-- An environment over the record store: `zones` is the zone discovery and
`rejectDuplicates` the provider's treatment of a duplicate record. -/
def storeEnv (rejectDuplicates : Bool) (zones : String → Except GoError String) : Env Store where
  FindZoneByFqdn := zones
  Unmarshal := sampleUnmarshal
  SecretsGet := sampleSecretsGet
  NewClient := fun apiToken => { apiKey := apiToken, Endpoint := "https://www.namesilo.com/api" }
  GetEndpoint := fun prod ote =>
    if prod && ote then .error "prod and ote are mutually exclusive"
    else if ote then .ok "https://ote.namesilo.com/api"
    else if prod then .ok "https://www.namesilo.com/api"
    else .ok "https://sandbox.namesilo.com/api"
  DnsAddRecord := Store.add rejectDuplicates
  DnsDeleteRecord := Store.delete

/-- A solver after `Initialize`, before any `Present`. -/
def solver0 : namesiloDNSProviderSolver :=
  { client := some { host := "https://kubernetes.default.svc" }, recordId := "" }

/-- The challenge for `_acme-challenge.example.com.` in zone `example.com.` with the given
key, configured by `sampleConfigJSON`. -/
def challenge (key : String) : ChallengeRequest :=
  { ResolvedFQDN := "_acme-challenge.example.com."
    ResolvedZone := "example.com."
    Key := key
    AllowAmbientCredentials := false
    Config := some sampleConfigJSON
    ResourceNamespace := "cert-manager" }

/-- Runs `Present` from the state a previous step left behind. -/
def Step.present {σ : Type} (env : Env σ) (st : Step σ) (ch : ChallengeRequest) : Step σ :=
  Present env st.solver st.prov ch

/-- Runs `CleanUp` from the state a previous step left behind. -/
def Step.cleanUp {σ : Type} (env : Env σ) (st : Step σ) (ch : ChallengeRequest) : Step σ :=
  CleanUp env st.solver st.prov ch

/-! # Theorems -/

/-! ## Facts about `strings.Index` -/

/-- When `sub` occurs in `p ++ sub ++ r` at no offset before `p.length`, the search from
offset `i` returns `i + p.length`. -/
theorem indexFrom_first (sub : List Char) (p r : List Char) (i : Nat)
    (hfirst : ∀ q r' : List Char, p ++ sub ++ r = q ++ sub ++ r' → p.length ≤ q.length) :
    indexFrom sub (p ++ sub ++ r) i = (i : Int) + p.length := by
  induction p generalizing i with
  | nil =>
    have hp : sub.isPrefixOf ([] ++ sub ++ r) = true := by
      rw [List.isPrefixOf_iff_prefix]
      exact ⟨r, by simp⟩
    cases hs : ([] ++ sub ++ r : List Char) with
    | nil => rw [hs] at hp; simp [indexFrom, hp]
    | cons c t => rw [hs] at hp; simp [indexFrom, hp]
  | cons c p ih =>
    have hnp : sub.isPrefixOf (c :: (p ++ sub ++ r)) = false := by
      cases h : sub.isPrefixOf (c :: (p ++ sub ++ r)) with
      | false => rfl
      | true =>
        rw [List.isPrefixOf_iff_prefix] at h
        obtain ⟨r', hr'⟩ := h
        have := hfirst [] r' (by simpa using hr'.symm)
        simp at this
    have hrec : ∀ q r' : List Char, p ++ sub ++ r = q ++ sub ++ r' → p.length ≤ q.length := by
      intro q r' h
      have := hfirst (c :: q) r' (by simp [List.append_assoc] at h ⊢; exact h)
      simpa using this
    have := ih (i + 1) hrec
    have hstep : indexFrom sub (c :: (p ++ sub ++ r)) i
        = indexFrom sub (p ++ sub ++ r) (i + 1) := by
      rw [indexFrom, hnp]; rfl
    have hcons : c :: p ++ sub ++ r = c :: (p ++ sub ++ r) := by simp
    rw [hcons, hstep, this, List.length_cons]
    push_cast
    ring

/-- When `sub` does not occur in `s`, the search returns `-1`. -/
theorem indexFrom_absent (sub : List Char) (s : List Char) (i : Nat)
    (habs : ∀ q r : List Char, s ≠ q ++ sub ++ r) : indexFrom sub s i = -1 := by
  induction s generalizing i with
  | nil =>
    have hnp : sub.isPrefixOf ([] : List Char) = false := by
      cases h : sub.isPrefixOf ([] : List Char) with
      | false => rfl
      | true =>
        rw [List.isPrefixOf_iff_prefix] at h
        obtain ⟨r', hr'⟩ := h
        exact absurd (by simpa using hr'.symm) (habs [] r')
    simp [indexFrom, hnp]
  | cons c t ih =>
    have hnp : sub.isPrefixOf (c :: t) = false := by
      cases h : sub.isPrefixOf (c :: t) with
      | false => rfl
      | true =>
        rw [List.isPrefixOf_iff_prefix] at h
        obtain ⟨r', hr'⟩ := h
        exact absurd (by simpa using hr'.symm) (habs [] r')
    have hrec : ∀ q r : List Char, t ≠ q ++ sub ++ r := by
      intro q r h
      exact habs (c :: q) r (by simp [h])
    simp [indexFrom, hnp, ih (i + 1) hrec]

/-- An occurrence of `sub` in `s` after the prefix `q` is seen by dropping `q.length`
characters. -/
theorem isPrefixOf_drop_of_occurrence (sub s q r : List Char) (h : s = q ++ sub ++ r) :
    sub.isPrefixOf (s.drop q.length) = true := by
  rw [List.isPrefixOf_iff_prefix, h, List.append_assoc, List.drop_left]
  exact ⟨r, rfl⟩

/-- The characters of `q ++ "." ++ z ++ r`. -/
theorem data_occurrence (q z r : String) :
    (q ++ "." ++ z ++ r).data = q.data ++ ('.' :: z.data) ++ r.data := by
  rw [String.data_append, String.data_append, String.data_append]
  show (q.data ++ ['.'] ++ z.data) ++ r.data = q.data ++ ('.' :: z.data) ++ r.data
  rw [List.append_assoc q.data ['.'] z.data]
  rfl

/-- The characters of `"." ++ z`. -/
theorem data_dot_append (z : String) : ("." ++ z).data = '.' :: z.data := by
  rw [String.data_append]
  rfl

/-- A decidable form of "the first occurrence of `"." ++ z` in `name` is not before
offset `n`". -/
theorem first_occurrence_of_drop (name z : String) (n : Nat)
    (h : ∀ k, k < n → ('.' :: z.data).isPrefixOf (name.data.drop k) = false) :
    ∀ q r : String, name = q ++ "." ++ z ++ r → n ≤ q.length := by
  intro q r hq
  by_contra hlt
  have hocc := isPrefixOf_drop_of_occurrence ('.' :: z.data) name.data q.data r.data
    (by rw [hq, data_occurrence])
  have hk : q.data.length < n := Nat.lt_of_not_le hlt
  have := h q.data.length hk
  rw [this] at hocc
  exact Bool.false_ne_true hocc

/-! ## Equations of `Present` and `CleanUp`, one for each path through the code -/

theorem Present_of_client_error {σ : Type} (env : Env σ) (c : namesiloDNSProviderSolver)
    (w : σ) (ch : ChallengeRequest) (e : GoError) (tr : List Event)
    (hc : namesiloAPIClient env c ch = (.error e, tr)) :
    Present env c w ch = { ret := .error e, solver := c, prov := w, trace := tr } := by
  simp only [Present, hc]

theorem Present_of_client_panic {σ : Type} (env : Env σ) (c : namesiloDNSProviderSolver)
    (w : σ) (ch : ChallengeRequest) (tr : List Event)
    (hc : namesiloAPIClient env c ch = (.panic, tr)) :
    Present env c w ch = { ret := .panic, solver := c, prov := w, trace := tr } := by
  simp only [Present, hc]

theorem Present_of_add_error {σ : Type} (env : Env σ) (c : namesiloDNSProviderSolver)
    (w : σ) (ch : ChallengeRequest) (nc : NamesiloClient) (tr : List Event) (e : GoError)
    (w' : σ) (hc : namesiloAPIClient env c ch = (.ok nc, tr))
    (ha : env.DnsAddRecord w nc (presentParams env ch) = (.error e, w')) :
    Present env c w ch = { ret := .error e, solver := c, prov := w',
                           trace := tr ++ [Event.addRecord nc (presentParams env ch)] } := by
  unfold presentParams at ha
  simp only [Present, hc, ha, presentParams]

theorem Present_of_add_ok {σ : Type} (env : Env σ) (c : namesiloDNSProviderSolver)
    (w : σ) (ch : ChallengeRequest) (nc : NamesiloClient) (tr : List Event) (id : String)
    (w' : σ) (hc : namesiloAPIClient env c ch = (.ok nc, tr))
    (ha : env.DnsAddRecord w nc (presentParams env ch) = (.ok id, w')) :
    Present env c w ch = { ret := .ok (), solver := { c with recordId := id }, prov := w',
                           trace := tr ++ [Event.addRecord nc (presentParams env ch)] } := by
  unfold presentParams at ha
  simp only [Present, hc, ha, presentParams]

theorem CleanUp_of_client_error {σ : Type} (env : Env σ) (c : namesiloDNSProviderSolver)
    (w : σ) (ch : ChallengeRequest) (e : GoError) (tr : List Event)
    (hc : namesiloAPIClient env c ch = (.error e, tr)) :
    CleanUp env c w ch = { ret := .error e, solver := c, prov := w, trace := tr } := by
  simp only [CleanUp, hc]

theorem CleanUp_of_delete_error {σ : Type} (env : Env σ) (c : namesiloDNSProviderSolver)
    (w : σ) (ch : ChallengeRequest) (nc : NamesiloClient) (tr : List Event) (e : GoError)
    (w' : σ) (hc : namesiloAPIClient env c ch = (.ok nc, tr))
    (hd : env.DnsDeleteRecord w nc (cleanUpParams env c ch) = (.error e, w')) :
    CleanUp env c w ch = { ret := .error e, solver := c, prov := w',
                           trace := tr ++ [Event.deleteRecord nc (cleanUpParams env c ch)] } := by
  unfold cleanUpParams at hd
  simp only [CleanUp, hc, hd, cleanUpParams]

theorem CleanUp_of_delete_ok {σ : Type} (env : Env σ) (c : namesiloDNSProviderSolver)
    (w : σ) (ch : ChallengeRequest) (nc : NamesiloClient) (tr : List Event)
    (w' : σ) (hc : namesiloAPIClient env c ch = (.ok nc, tr))
    (hd : env.DnsDeleteRecord w nc (cleanUpParams env c ch) = (.ok (), w')) :
    CleanUp env c w ch = { ret := .ok (), solver := c, prov := w',
                           trace := tr ++ [Event.deleteRecord nc (cleanUpParams env c ch)] } := by
  unfold cleanUpParams at hd
  simp only [CleanUp, hc, hd, cleanUpParams]

/-- The requests of `secret` are secret lookups only. -/
theorem createCalls_secret {σ : Type} (env : Env σ) (c : namesiloDNSProviderSolver)
    (ref : SecretKeySelector) (ns : String) : createCalls (secret env c ref ns).2 = [] := by
  unfold secret
  split
  · rfl
  · split
    · rfl
    · split <;> rfl

/-- The requests of `namesiloAPIClient` hold no create-record call. -/
theorem createCalls_namesiloAPIClient {σ : Type} (env : Env σ)
    (c : namesiloDNSProviderSolver) (ch : ChallengeRequest) :
    createCalls (namesiloAPIClient env c ch).2 = [] := by
  unfold namesiloAPIClient
  rcases loadConfig env ch.Config with ⟨cfg, _ | e⟩
  · dsimp only
    cases validate cfg ch.AllowAmbientCredentials with
    | some e => rfl
    | none =>
      dsimp only
      have hs := createCalls_secret env c cfg.ApiTokenSecretRef ch.ResourceNamespace
      generalize secret env c cfg.ApiTokenSecretRef ch.ResourceNamespace = x at hs ⊢
      rcases x with ⟨r, tr⟩
      cases r with
      | ok apiToken =>
        dsimp only at hs ⊢
        cases env.GetEndpoint false true <;> exact hs
      | error e => exact hs
      | panic => exact hs
  · rfl

/-- The create-record calls of a trace extended by one create-record call. -/
theorem createCalls_append_add (tr : List Event) (nc : NamesiloClient)
    (p : DnsAddRecordParams) :
    createCalls (tr ++ [Event.addRecord nc p]) = createCalls tr ++ [p] := by
  simp [createCalls, List.filterMap_append, Event.addParams]

/-! ## C1: the create-record call of `Present` -/

/-- C1: when `namesiloAPIClient` succeeds, the requests of `Present` hold exactly one
create-record call, with Domain `extractDomainName(ResolvedZone)`, Host
`extractRecordName(ResolvedFQDN, ResolvedZone)`, Type "TXT", Value the request key and
TTL 3600; for FQDN `_acme-challenge.example.com.` and zone `example.com.` with zone
discovery returning `example.com.` the call has Domain `example.com` and Host
`_acme-challenge`. -/
theorem Present_create_call {σ : Type} (env : Env σ) (c : namesiloDNSProviderSolver) (w : σ)
    (ch : ChallengeRequest) (nc : NamesiloClient) (tr : List Event)
    (hc : namesiloAPIClient env c ch = (.ok nc, tr)) :
    createCalls (Present env c w ch).trace =
        [{ Domain := extractDomainName env ch.ResolvedZone
           Host := extractRecordName ch.ResolvedFQDN ch.ResolvedZone
           Type_ := "TXT"
           Value := ch.Key
           TTL := 3600 }] ∧
      (ch.ResolvedFQDN = "_acme-challenge.example.com." → ch.ResolvedZone = "example.com." →
        env.FindZoneByFqdn "example.com." = .ok "example.com." →
        ∃ p, createCalls (Present env c w ch).trace = [p] ∧ p.Domain = "example.com" ∧
          p.Host = "_acme-challenge" ∧ p.Type_ = "TXT" ∧ p.Value = ch.Key ∧ p.TTL = 3600) := by
  have htr : createCalls tr = [] := by
    have := createCalls_namesiloAPIClient env c ch
    rw [hc] at this
    exact this
  have hcalls : createCalls (Present env c w ch).trace = [presentParams env ch] := by
    rcases ha : env.DnsAddRecord w nc (presentParams env ch) with ⟨r, w'⟩
    cases r with
    | error e =>
      rw [Present_of_add_error env c w ch nc tr e w' hc ha]
      simp only [createCalls_append_add, htr, List.nil_append]
    | ok id =>
      rw [Present_of_add_ok env c w ch nc tr id w' hc ha]
      simp only [createCalls_append_add, htr, List.nil_append]
  refine ⟨hcalls, ?_⟩
  intro hf hz hzone
  refine ⟨presentParams env ch, hcalls, ?_, ?_, rfl, rfl, rfl⟩
  · show extractDomainName env ch.ResolvedZone = "example.com"
    unfold extractDomainName
    rw [hz, hzone]
    decide
  · show extractRecordName ch.ResolvedFQDN ch.ResolvedZone = "_acme-challenge"
    rw [hf, hz]
    decide

/-- C1, at a concrete input: the challenge for `_acme-challenge.example.com.` with key
`k1`, presented to an empty record store. -/
theorem Present_create_call_witness :
    createCalls (Present (storeEnv true zonesFound) solver0 Store.empty (challenge "k1")).trace =
      [{ Domain := "example.com", Host := "_acme-challenge", Type_ := "TXT", Value := "k1",
         TTL := 3600 }] :=
  (Present_create_call (storeEnv true zonesFound) solver0 Store.empty (challenge "k1")
    { apiKey := "s3cr3t", Endpoint := "https://ote.namesilo.com/api" }
    [Event.secretGet "cert-manager" "namesilo-credentials"] (by decide)).1.trans (by decide)

/-! ## C2: the record name -/

/-- C2, as stated, fails at the zone apex: the FQDN `example.com.` ends with the zone
`example.com.`, the portion before the zone suffix is empty, and `extractRecordName`
returns the whole name `example.com`. -/
theorem extractRecordName_apex_counterexample :
    stringsHasSuffix "example.com." "example.com." = true ∧
      extractRecordName "example.com." "example.com." = "example.com" ∧
      UnFqdn "example.com." ≠
        extractRecordName "example.com." "example.com." ++ "." ++ UnFqdn "example.com." := by
  decide

/-- C2, amended: when the name without its trailing dot is `p ++ "." ++ zone` (zone without
its trailing dot) and `"." ++ zone` occurs nowhere before that suffix, `extractRecordName`
returns `p`; when `"." ++ zone` does not occur in the name at all, it returns the name
without its trailing dot. -/
theorem extractRecordName_first_suffix (f z : String) :
    (∀ p : String, UnFqdn f = p ++ "." ++ UnFqdn z →
      (∀ q r : String, UnFqdn f = q ++ "." ++ UnFqdn z ++ r → p.length ≤ q.length) →
      extractRecordName f z = p) ∧
    ((∀ q r : String, UnFqdn f ≠ q ++ "." ++ UnFqdn z ++ r) →
      extractRecordName f z = UnFqdn f) := by
  constructor
  · intro p hsuf hfirst
    have hdata : (UnFqdn f).data = p.data ++ ('.' :: (UnFqdn z).data) ++ [] := by
      rw [hsuf, String.data_append, String.data_append, List.append_nil]
      show p.data ++ ['.'] ++ (UnFqdn z).data = p.data ++ ('.' :: (UnFqdn z).data)
      rw [List.append_assoc]
      rfl
    have hmin : ∀ q r' : List Char,
        p.data ++ ('.' :: (UnFqdn z).data) ++ [] = q ++ ('.' :: (UnFqdn z).data) ++ r' →
        p.data.length ≤ q.length := by
      intro q r' h
      exact hfirst ⟨q⟩ ⟨r'⟩ (by
        apply String.ext
        rw [data_occurrence, hdata, h])
    have hidx : stringsIndex (UnFqdn f) ("." ++ UnFqdn z) = (p.data.length : Int) := by
      have := indexFrom_first ('.' :: (UnFqdn z).data) p.data [] 0 hmin
      unfold stringsIndex
      rw [hdata, data_dot_append, this]
      simp
    unfold extractRecordName
    simp only [hidx]
    have hne : ((p.data.length : Nat) : Int) ≠ -1 := by omega
    rw [if_pos hne]
    apply String.ext
    simp [hdata]
  · intro habs
    have hidx : stringsIndex (UnFqdn f) ("." ++ UnFqdn z) = -1 := by
      unfold stringsIndex
      have := indexFrom_absent ('.' :: (UnFqdn z).data) (UnFqdn f).data 0 (by
        intro q r h
        apply habs ⟨q⟩ ⟨r⟩
        apply String.ext
        rw [data_occurrence, h])
      rw [data_dot_append]
      exact this
    unfold extractRecordName
    simp [hidx]

/-- C2, amended, at concrete inputs: a challenge name under its zone, and the zone apex. -/
theorem extractRecordName_first_suffix_witness :
    extractRecordName "_acme-challenge.example.com." "example.com." = "_acme-challenge" ∧
      extractRecordName "example.com." "example.com." = UnFqdn "example.com." :=
  ⟨(extractRecordName_first_suffix "_acme-challenge.example.com." "example.com.").1
      "_acme-challenge" (by decide) (first_occurrence_of_drop _ _ 15 (by decide)),
    (extractRecordName_first_suffix "example.com." "example.com.").2
      (fun q r h => absurd (congrArg String.length h) (by
        have h1 : (UnFqdn "example.com.").length = 11 := by decide
        have h2 : (".").length = 1 := by decide
        simp only [String.length_append, h1, h2]
        omega))⟩

/-- The cut is made at the first occurrence of `"." ++ zone`, not at the suffix: under the
zone `example.com.` the name `_acme-challenge.example.community.example.com.` yields
`_acme-challenge`, while the portion before the zone suffix is
`_acme-challenge.example.community`. -/
theorem extractRecordName_first_occurrence :
    stringsHasSuffix "_acme-challenge.example.community.example.com." "example.com." = true ∧
      extractRecordName "_acme-challenge.example.community.example.com." "example.com."
        = "_acme-challenge" := by
  decide

/-! ## C3: the result of `Present` -/

/-- C3: `Present` returns nil exactly when client construction and the create-record call
both succeed, and then the stored record identifier is the one the provider returned; when
client construction or the create-record call fails with `e`, `Present` returns `e` and the
stored record identifier is unchanged. -/
theorem Present_outcome {σ : Type} (env : Env σ) (c : namesiloDNSProviderSolver) (w : σ)
    (ch : ChallengeRequest) :
    ((Present env c w ch).ret = .ok () ↔
        ∃ nc tr id w', namesiloAPIClient env c ch = (.ok nc, tr) ∧
          env.DnsAddRecord w nc (presentParams env ch) = (.ok id, w')) ∧
      (∀ nc tr id w', namesiloAPIClient env c ch = (.ok nc, tr) →
        env.DnsAddRecord w nc (presentParams env ch) = (.ok id, w') →
        (Present env c w ch).ret = .ok () ∧ (Present env c w ch).solver.recordId = id) ∧
      (∀ e tr, namesiloAPIClient env c ch = (.error e, tr) →
        (Present env c w ch).ret = .error e ∧
          (Present env c w ch).solver.recordId = c.recordId) ∧
      (∀ nc tr e w', namesiloAPIClient env c ch = (.ok nc, tr) →
        env.DnsAddRecord w nc (presentParams env ch) = (.error e, w') →
        (Present env c w ch).ret = .error e ∧
          (Present env c w ch).solver.recordId = c.recordId) := by
  refine ⟨⟨?_, ?_⟩, ?_, ?_, ?_⟩
  · intro hret
    rcases hc : namesiloAPIClient env c ch with ⟨r, tr⟩
    cases r with
    | error e => rw [Present_of_client_error env c w ch e tr hc] at hret; cases hret
    | panic => rw [Present_of_client_panic env c w ch tr hc] at hret; cases hret
    | ok nc =>
      rcases ha : env.DnsAddRecord w nc (presentParams env ch) with ⟨a, w'⟩
      cases a with
      | error e => rw [Present_of_add_error env c w ch nc tr e w' hc ha] at hret; cases hret
      | ok id => exact ⟨nc, tr, id, w', rfl, ha⟩
  · rintro ⟨nc, tr, id, w', hc, ha⟩
    rw [Present_of_add_ok env c w ch nc tr id w' hc ha]
  · intro nc tr id w' hc ha
    rw [Present_of_add_ok env c w ch nc tr id w' hc ha]
    exact ⟨rfl, rfl⟩
  · intro e tr hc
    rw [Present_of_client_error env c w ch e tr hc]
    exact ⟨rfl, rfl⟩
  · intro nc tr e w' hc ha
    rw [Present_of_add_error env c w ch nc tr e w' hc ha]
    exact ⟨rfl, rfl⟩

/-- C3, at concrete inputs: a first `Present` that succeeds and stores the identifier `1`,
a `Present` whose configuration blob does not decode, and a `Present` whose create-record
call the provider refuses. -/
theorem Present_outcome_witness :
    ((Present (storeEnv true zonesFound) solver0 Store.empty (challenge "k1")).ret = .ok () ∧
        (Present (storeEnv true zonesFound) solver0 Store.empty
          (challenge "k1")).solver.recordId = "1") ∧
      ((Present (storeEnv true zonesFound) solver0 Store.empty
          { challenge "k1" with Config := some "" }).ret
          = .error "error decoding solver config: unexpected end of JSON input" ∧
        (Present (storeEnv true zonesFound) solver0 Store.empty
          { challenge "k1" with Config := some "" }).solver.recordId = "") ∧
      ((Present (storeEnv true zonesFound) { solver0 with recordId := "1" }
          { records := [{ ID := "1", Domain := "example.com", Host := "_acme-challenge",
                          Type_ := "TXT", Value := "k1", TTL := 3600 }], issued := 1 }
          (challenge "k1")).ret = .error "code: 280, details: record already exists" ∧
        (Present (storeEnv true zonesFound) { solver0 with recordId := "1" }
          { records := [{ ID := "1", Domain := "example.com", Host := "_acme-challenge",
                          Type_ := "TXT", Value := "k1", TTL := 3600 }], issued := 1 }
          (challenge "k1")).solver.recordId = "1") :=
  ⟨(Present_outcome (storeEnv true zonesFound) solver0 Store.empty (challenge "k1")).2.1
      { apiKey := "s3cr3t", Endpoint := "https://ote.namesilo.com/api" }
      [Event.secretGet "cert-manager" "namesilo-credentials"] "1"
      { records := [{ ID := "1", Domain := "example.com", Host := "_acme-challenge",
                      Type_ := "TXT", Value := "k1", TTL := 3600 }], issued := 1 }
      (by decide) (by rfl),
    (Present_outcome (storeEnv true zonesFound) solver0 Store.empty
      { challenge "k1" with Config := some "" }).2.2.1
      "error decoding solver config: unexpected end of JSON input" [] (by decide),
    (Present_outcome (storeEnv true zonesFound) { solver0 with recordId := "1" }
      { records := [{ ID := "1", Domain := "example.com", Host := "_acme-challenge",
                      Type_ := "TXT", Value := "k1", TTL := 3600 }], issued := 1 }
      (challenge "k1")).2.2.2
      { apiKey := "s3cr3t", Endpoint := "https://ote.namesilo.com/api" }
      [Event.secretGet "cert-manager" "namesilo-credentials"]
      "code: 280, details: record already exists"
      { records := [{ ID := "1", Domain := "example.com", Host := "_acme-challenge",
                      Type_ := "TXT", Value := "k1", TTL := 3600 }], issued := 1 }
      (by decide) (by rfl)⟩

/-! ## C4: `Present` called twice with the same challenge -/

/-- C4, at the failing input: against a provider that refuses a record it already holds,
the first `Present` of a challenge succeeds and the second `Present` of the identical
challenge returns the provider error; the `CleanUp` that follows succeeds. -/
theorem Present_twice_duplicate_refused :
    (Present (storeEnv true zonesFound) solver0 Store.empty (challenge "k1")).ret = .ok () ∧
      ((Present (storeEnv true zonesFound) solver0 Store.empty (challenge "k1")).present
        (storeEnv true zonesFound) (challenge "k1")).ret
        = .error "code: 280, details: record already exists" ∧
      (((Present (storeEnv true zonesFound) solver0 Store.empty (challenge "k1")).present
        (storeEnv true zonesFound) (challenge "k1")).cleanUp
        (storeEnv true zonesFound) (challenge "k1")).ret = .ok () := by
  decide

/-- Against a provider that stores a duplicate as a second record, both `Present` calls and
the `CleanUp` succeed; the record of the first `Present` stays behind. -/
theorem Present_twice_duplicate_stored :
    (Present (storeEnv false zonesFound) solver0 Store.empty (challenge "k1")).ret = .ok () ∧
      ((Present (storeEnv false zonesFound) solver0 Store.empty (challenge "k1")).present
        (storeEnv false zonesFound) (challenge "k1")).ret = .ok () ∧
      (((Present (storeEnv false zonesFound) solver0 Store.empty (challenge "k1")).present
        (storeEnv false zonesFound) (challenge "k1")).cleanUp
        (storeEnv false zonesFound) (challenge "k1")).ret = .ok () ∧
      (((Present (storeEnv false zonesFound) solver0 Store.empty (challenge "k1")).present
        (storeEnv false zonesFound) (challenge "k1")).cleanUp
        (storeEnv false zonesFound) (challenge "k1")).prov.records
        = [{ ID := "1", Domain := "example.com", Host := "_acme-challenge", Type_ := "TXT",
             Value := "k1", TTL := 3600 }] := by
  decide

/-! ## C5: `CleanUp` of a missing record -/

/-- C5, as stated, fails: after `Present` and a first `CleanUp` the stored identifier names
a deleted record; client construction succeeds, the delete-record call reports
"record not found", and the second `CleanUp` returns that error. The same holds for a
solver that never presented. -/
theorem CleanUp_missing_record_counterexample :
    (namesiloAPIClient (storeEnv true zonesFound)
        ((Present (storeEnv true zonesFound) solver0 Store.empty (challenge "k1")).cleanUp
          (storeEnv true zonesFound) (challenge "k1")).solver (challenge "k1")).1
        = .ok { apiKey := "s3cr3t", Endpoint := "https://ote.namesilo.com/api" } ∧
      ((Present (storeEnv true zonesFound) solver0 Store.empty (challenge "k1")).cleanUp
        (storeEnv true zonesFound) (challenge "k1")).ret = .ok () ∧
      (((Present (storeEnv true zonesFound) solver0 Store.empty (challenge "k1")).cleanUp
        (storeEnv true zonesFound) (challenge "k1")).cleanUp
        (storeEnv true zonesFound) (challenge "k1")).ret
        = .error "code: 280, details: record not found" ∧
      (((Present (storeEnv true zonesFound) solver0 Store.empty (challenge "k1")).cleanUp
        (storeEnv true zonesFound) (challenge "k1")).cleanUp
        (storeEnv true zonesFound) (challenge "k1")).ret ≠ .ok () ∧
      (CleanUp (storeEnv true zonesFound) solver0 Store.empty (challenge "k1")).ret
        = .error "code: 280, details: record not found" := by
  decide

/-- C5, amended: when client construction succeeds and the delete-record call fails with
`e` (as for "record not found"), `CleanUp` returns `e` unchanged and leaves the solver as
it was. -/
theorem CleanUp_delete_error {σ : Type} (env : Env σ) (c : namesiloDNSProviderSolver) (w : σ)
    (ch : ChallengeRequest) (nc : NamesiloClient) (tr : List Event) (e : GoError) (w' : σ)
    (hc : namesiloAPIClient env c ch = (.ok nc, tr))
    (hd : env.DnsDeleteRecord w nc (cleanUpParams env c ch) = (.error e, w')) :
    (CleanUp env c w ch).ret = .error e ∧ (CleanUp env c w ch).solver = c := by
  rw [CleanUp_of_delete_error env c w ch nc tr e w' hc hd]
  exact ⟨rfl, rfl⟩

/-- C5, amended, at a concrete input: `CleanUp` by a solver that never presented. -/
theorem CleanUp_delete_error_witness :
    (CleanUp (storeEnv true zonesFound) solver0 Store.empty (challenge "k1")).ret
        = .error "code: 280, details: record not found" ∧
      (CleanUp (storeEnv true zonesFound) solver0 Store.empty (challenge "k1")).solver
        = solver0 :=
  CleanUp_delete_error (storeEnv true zonesFound) solver0 Store.empty (challenge "k1")
    { apiKey := "s3cr3t", Endpoint := "https://ote.namesilo.com/api" }
    [Event.secretGet "cert-manager" "namesilo-credentials"]
    "code: 280, details: record not found" Store.empty (by decide) (by rfl)

/-! ## C6: which record `CleanUp` removes -/

/-- C6, at the failing input: after `Present` with key `k1` and `Present` with key `k2` for
the same record name, `CleanUp` of the challenge with key `k1` succeeds, removes the record
whose value is `k2` and leaves the record whose value is `k1`. -/
theorem CleanUp_removes_last_presented :
    ((Present (storeEnv true zonesFound) solver0 Store.empty (challenge "k1")).present
        (storeEnv true zonesFound) (challenge "k2")).ret = .ok () ∧
      ((Present (storeEnv true zonesFound) solver0 Store.empty (challenge "k1")).present
        (storeEnv true zonesFound) (challenge "k2")).prov.values = ["k1", "k2"] ∧
      (((Present (storeEnv true zonesFound) solver0 Store.empty (challenge "k1")).present
        (storeEnv true zonesFound) (challenge "k2")).cleanUp
        (storeEnv true zonesFound) (challenge "k1")).ret = .ok () ∧
      (((Present (storeEnv true zonesFound) solver0 Store.empty (challenge "k1")).present
        (storeEnv true zonesFound) (challenge "k2")).cleanUp
        (storeEnv true zonesFound) (challenge "k1")).prov.values = ["k1"] := by
  decide

/-- The delete-record call of `CleanUp` names the stored record identifier, whatever the key
of the challenge. -/
theorem cleanUpParams_key_irrelevant {σ : Type} (env : Env σ) (c : namesiloDNSProviderSolver)
    (ch : ChallengeRequest) (key : String) :
    cleanUpParams env c { ch with Key := key } = cleanUpParams env c ch := rfl

/-! ## C7: the fallback of `extractDomainName` -/

/-- When zone discovery fails, `extractDomainName` returns the zone as given. -/
theorem extractDomainName_of_error {σ : Type} (env : Env σ) (zone : String) (e : GoError)
    (h : env.FindZoneByFqdn zone = .error e) : extractDomainName env zone = zone := by
  unfold extractDomainName
  rw [h]

/-- C7, at the failing input: when zone discovery fails for `example.com.`,
`extractDomainName` returns `example.com.` with its trailing dot, not `example.com`;
when discovery succeeds the trailing dot is removed. -/
theorem extractDomainName_fallback_keeps_dot :
    extractDomainName (storeEnv true zonesFail) "example.com." = "example.com." ∧
      extractDomainName (storeEnv true zonesFail) "example.com." ≠ UnFqdn "example.com." ∧
      extractDomainName (storeEnv true zonesFound) "example.com." = "example.com" := by
  decide

/-! ## C8: `validate` -/

/-- C8: `validate` returns nil exactly when ambient credentials are allowed or both the
username and the secret-reference name are non-empty; when they are not allowed, an empty
username gives the username error, and a non-empty username with an empty
secret-reference name gives the credential-reference error. -/
theorem validate_spec (cfg : namesiloDNSProviderConfig) (allowAmbientCredentials : Bool) :
    (validate cfg allowAmbientCredentials = none ↔
        allowAmbientCredentials = true ∨
          (cfg.Username ≠ "" ∧ cfg.ApiTokenSecretRef.Name ≠ "")) ∧
      (allowAmbientCredentials = false → cfg.Username = "" →
        validate cfg allowAmbientCredentials
          = some "No Namesilo.com username provided in config") ∧
      (allowAmbientCredentials = false → cfg.Username ≠ "" →
        cfg.ApiTokenSecretRef.Name = "" →
        validate cfg allowAmbientCredentials
          = some "No Namesilo.com API token secret provided in config") := by
  unfold validate
  refine ⟨?_, ?_, ?_⟩
  · cases allowAmbientCredentials
    · by_cases hu : cfg.Username = ""
      · simp [hu]
      · by_cases hn : cfg.ApiTokenSecretRef.Name = ""
        · simp [hu, hn]
        · simp [hu, hn]
    · simp
  · intro ha hu
    simp [ha, hu]
  · intro ha hu hn
    simp [ha, hu, hn]

/-- C8, at concrete inputs: an empty config without and with ambient credentials, a config
with a username only, and a full config. -/
theorem validate_spec_witness :
    validate namesiloDNSProviderConfig.zero false
        = some "No Namesilo.com username provided in config" ∧
      validate { namesiloDNSProviderConfig.zero with Username := "alice" } false
        = some "No Namesilo.com API token secret provided in config" ∧
      validate namesiloDNSProviderConfig.zero true = none ∧
      validate sampleConfig false = none :=
  ⟨(validate_spec namesiloDNSProviderConfig.zero false).2.1 rfl (by decide),
    (validate_spec { namesiloDNSProviderConfig.zero with Username := "alice" } false).2.2 rfl
      (by decide) (by decide),
    (validate_spec namesiloDNSProviderConfig.zero true).1.2 (Or.inl rfl),
    (validate_spec sampleConfig false).1.2 (Or.inr ⟨by decide, by decide⟩)⟩

/-! ## C9: `secret` on an empty reference name -/

/-- C9: for a credential reference with an empty name, `secret` returns the empty string
with a nil error and performs no secret lookup, whatever the secret store, the solver,
the namespace and the key of the reference. -/
theorem secret_empty_name {σ : Type} (env : Env σ) (c : namesiloDNSProviderSolver)
    (ref : SecretKeySelector) (ns : String) (h : ref.Name = "") :
    secret env c ref ns = (.ok "", []) := by
  unfold secret
  rw [if_pos h]

/-- C9, at a concrete input: a reference with an empty name and the key `api-token`. -/
theorem secret_empty_name_witness :
    secret (storeEnv true zonesFound) solver0
      { Name := "", Key := "api-token", Optional := none } "cert-manager" = (.ok "", []) :=
  secret_empty_name (storeEnv true zonesFound) solver0
    { Name := "", Key := "api-token", Optional := none } "cert-manager" rfl

/-! ## C10: `loadConfig` -/

/-- C10: on a nil blob `loadConfig` returns the zero config (empty username, empty secret
reference) with a nil error; on a blob whose decoding fails with `e` it returns the error
"error decoding solver config: " followed by `e`; on a blob that decodes it returns the
decoded config with a nil error. -/
theorem loadConfig_spec {σ : Type} (env : Env σ) :
    (loadConfig env none = (namesiloDNSProviderConfig.zero, none) ∧
        namesiloDNSProviderConfig.zero.Username = "" ∧
        namesiloDNSProviderConfig.zero.ApiTokenSecretRef
          = { Name := "", Key := "", Optional := none }) ∧
      (∀ raw cfg e, env.Unmarshal raw namesiloDNSProviderConfig.zero = (cfg, some e) →
        loadConfig env (some raw) = (cfg, some ("error decoding solver config: " ++ e))) ∧
      (∀ raw cfg, env.Unmarshal raw namesiloDNSProviderConfig.zero = (cfg, none) →
        loadConfig env (some raw) = (cfg, none)) := by
  refine ⟨⟨rfl, rfl, rfl⟩, ?_, ?_⟩
  · intro raw cfg e h
    simp only [loadConfig, h]
  · intro raw cfg h
    simp only [loadConfig, h]

/-- C10, at concrete inputs: a blob that does not decode and the blob `sampleConfigJSON`. -/
theorem loadConfig_spec_witness :
    loadConfig (storeEnv true zonesFound) (some "")
        = (namesiloDNSProviderConfig.zero,
            some "error decoding solver config: unexpected end of JSON input") ∧
      loadConfig (storeEnv true zonesFound) (some sampleConfigJSON) = (sampleConfig, none) :=
  ⟨(loadConfig_spec (storeEnv true zonesFound)).2.1 "" namesiloDNSProviderConfig.zero
      "unexpected end of JSON input" (by decide),
    (loadConfig_spec (storeEnv true zonesFound)).2.2 sampleConfigJSON sampleConfig
      (by decide)⟩

end Namesilo
